import Mathlib

/-!
Verification of the Kafka event-bus client and consumer-observability
subsystem of the `lms-service-node` repository.

The definitions below are a shallow embedding of the TypeScript source:

* `src/src/kafka/core/BaseProducer.ts` — `send`, `sendBatch`
* `src/src/kafka/core/BaseConsumer.ts` — `handleMessage`
* `src/src/kafka/services/EventPublisher.ts` — `EventPublisher.publishBatch`,
  `ConsumerTrackingService` (health report, dashboard, severity)
* `src/src/repositories/kafka-tracking.repo.ts` — `acknowledgeError`,
  `getMessageProcessing`, `updateMessageProcessing`

JavaScript numbers are modelled as `Int` (lags, scores, durations) and `Rat`
(rates, average times); JavaScript truthiness of strings (`""` is falsy) is
modelled explicitly where the source relies on it (`key || event.eventId`,
`event.correlationId && {...}`).
-/

/-- The event envelope (`IEvent` in `src/src/kafka/interfaces/IEvent.ts`):
`eventId`, `eventType`, `timestamp`, `source`, `version`, optional
`correlationId`, opaque payload. Timestamps and payloads are kept as strings
since no claim inspects their structure. -/
structure IEvent where
  eventId : String
  eventType : String
  timestamp : String
  source : String
  version : String
  correlationId : Option String
  payload : String
  deriving Repr, DecidableEq

/-- JavaScript `a || b` on an optional string `a`: `undefined` and the empty
string are falsy, so they fall through to `b`. -/
def jsOrString (a : Option String) (b : String) : String :=
  match a with
  | some s => if s = "" then b else s
  | none => b

/-- A Kafka message as built by `BaseProducer.send` / `sendBatch`:
`key`, serialized `value`, and the header map. -/
structure KafkaMessage where
  key : String
  value : String
  headers : List (String × String)
  deriving Repr, DecidableEq

/-- A producer record: topic plus the list of messages in the one
`producer.send(record)` call. -/
structure ProducerRecord where
  topic : String
  messages : List KafkaMessage
  deriving Repr, DecidableEq

/-- Deterministic model of `JSON.stringify(event)`.  No claim inspects the
serialized text, only that it is a function of the event. -/
def serializeEvent (e : IEvent) : String :=
  "eventId=" ++ e.eventId ++ ";eventType=" ++ e.eventType ++
    ";timestamp=" ++ e.timestamp ++ ";source=" ++ e.source ++
    ";version=" ++ e.version ++
    (match e.correlationId with
      | some c => ";correlationId=" ++ c
      | none => "") ++
    ";payload=" ++ e.payload

/-- The transport headers of `BaseProducer.send`/`sendBatch`:
`eventType`, `eventId`, `timestamp`, `source`, `version`, and `correlationId`
only when the envelope carries a truthy (non-empty) one — the source spreads
`...(event.correlationId && { correlationId: event.correlationId })`. -/
def mkHeaders (e : IEvent) : List (String × String) :=
  [("eventType", e.eventType), ("eventId", e.eventId),
   ("timestamp", e.timestamp), ("source", e.source), ("version", e.version)] ++
  (match e.correlationId with
    | some c => if c = "" then [] else [("correlationId", c)]
    | none => [])

/-- The single message built by `BaseProducer.send`:
`key: key || event.eventId` (JS falsy on the empty string),
`value: JSON.stringify(event)`, headers as above. -/
def mkMessage (e : IEvent) (key : Option String) : KafkaMessage :=
  { key := jsOrString key e.eventId
    value := serializeEvent e
    headers := mkHeaders e }

/-- `BaseProducer.send(event, key?)`: throws when not connected, otherwise
emits exactly one record `{ topic, messages: [message] }` to the broker.
The emitted record is returned as the observable effect. -/
def send (connected : Bool) (topic : String) (event : IEvent)
    (key : Option String) : Except String ProducerRecord :=
  if !connected then
    .error ("Producer not connected for topic: " ++ topic)
  else
    .ok { topic := topic, messages := [mkMessage event key] }

/-- `BaseProducer.sendBatch(events)`: throws when not connected; an empty
array is logged and returns with no record sent (`none`); otherwise emits one
record whose messages use `key: event.eventId` (no key parameter exists on the
batch path). -/
def sendBatch (connected : Bool) (topic : String) (events : List IEvent) :
    Except String (Option ProducerRecord) :=
  if !connected then
    .error ("Producer not connected for topic: " ++ topic)
  else if events.length = 0 then
    .ok none
  else
    .ok (some { topic := topic
                messages := events.map (fun e => mkMessage e (some e.eventId)) })

/-- One entry of `EventPublisher.publishBatch`. -/
structure PublishEntry where
  topic : String
  event : IEvent
  key : Option String
  deriving Repr, DecidableEq

/-- The `Map`-based grouping of `EventPublisher.publishBatch`: a JS `Map`
iterates in key-insertion order, and each topic's list keeps the original
entry order. -/
def groupByTopic (entries : List PublishEntry) :
    List (String × List (IEvent × Option String)) :=
  entries.foldl
    (fun acc en =>
      if acc.any (fun p => p.1 = en.topic) then
        acc.map (fun p =>
          if p.1 = en.topic then (p.1, p.2 ++ [(en.event, en.key)]) else p)
      else acc ++ [(en.topic, [(en.event, en.key)])])
    []

/-- `EventPublisher.publishBatch(events)`: throws when not initialized;
an empty batch is logged and returns with no producer interaction; otherwise
the entries are grouped by topic and each entry is sent through that topic's
producer via `producer.send(event, key)` (the publisher lazily reconnects a
disconnected producer first, so at send time the producer is connected).
The observable effect is the list of emitted records. -/
def publishBatch (initialized : Bool) (entries : List PublishEntry) :
    Except String (List ProducerRecord) :=
  if !initialized then
    .error ("EventPublisher not ready")
  else if entries.length = 0 then
    .ok []
  else
    .ok ((groupByTopic entries).map
          (fun p => p.2.map (fun ek =>
            { topic := p.1, messages := [mkMessage ek.1 ek.2] }))).flatten

/-! ### Health report (`ConsumerTrackingService.getConsumerHealthReport`) -/

/-- The inputs the health computation reads: total lag of the group
(`groupLag.reduce`), `latestMetrics?.errorRate || 0`,
`latestMetrics?.avgProcessingTimeMs || 0`, and the consumer-group status. -/
structure HealthInputs where
  totalLag : Int
  errorRate : Rat
  avgProcessingTimeMs : Rat
  groupStatus : String
  deriving Repr, DecidableEq

/-- Lag deduction of `getConsumerHealthReport`: −30 when `totalLag > 10000`,
else −15 when `totalLag > 1000`. -/
def lagDeduction (lag : Int) : Int :=
  if lag > 10000 then 30 else if lag > 1000 then 15 else 0

/-- Error-rate deduction: −25 when `errorRate > 10`, else −10 when `> 5`. -/
def errorRateDeduction (r : Rat) : Int :=
  if r > 10 then 25 else if r > 5 then 10 else 0

/-- Processing-time deduction: −20 when `avgProcessingTime > 5000`, else −10
when `> 2000`. -/
def processingTimeDeduction (t : Rat) : Int :=
  if t > 5000 then 20 else if t > 2000 then 10 else 0

/-- Connectivity deduction: −40 when the group status is not `ACTIVE`. -/
def connectivityDeduction (status : String) : Int :=
  if status ≠ "ACTIVE" then 40 else 0

/-- The health score of `getConsumerHealthReport`: starts at 100 and applies
the four additive deductions.  The source applies no clamping afterwards. -/
def healthScore (i : HealthInputs) : Int :=
  100 - lagDeduction i.totalLag - errorRateDeduction i.errorRate
    - processingTimeDeduction i.avgProcessingTimeMs
    - connectivityDeduction i.groupStatus

/-- Overall status from the score: `HEALTHY` when `score ≥ 80`, `WARNING`
when `score ≥ 50`, else `CRITICAL`. -/
def healthStatus (score : Int) : String :=
  if score ≥ 80 then "HEALTHY" else if score ≥ 50 then "WARNING" else "CRITICAL"

/-- The `healthScore`/`status` pair of the report returned by
`getConsumerHealthReport`. -/
structure ConsumerHealthReport where
  healthScore : Int
  status : String
  deriving Repr, DecidableEq

/-- `getConsumerHealthReport` restricted to the fields the claims are about:
the score and the derived overall status. -/
def getConsumerHealthReport (i : HealthInputs) : ConsumerHealthReport :=
  { healthScore := healthScore i, status := healthStatus (healthScore i) }

/-! ### Tracking store (`kafka-tracking.repo.ts` + `ConsumerTrackingService`) -/

/-- A row of `kafka_message_processing` restricted to the columns the claims
touch.  `createMessageProcessing` inserts it with status `PROCESSING`. -/
structure MessageProcessingRow where
  id : Nat
  consumerGroupId : Nat
  messageId : String
  topic : String
  partition : Nat
  offset : Int
  eventType : String
  status : String
  retryCount : Nat
  errorMessage : Option String
  deriving Repr, DecidableEq

/-- A row of `kafka_consumer_errors`. -/
structure ConsumerErrorRow where
  id : Nat
  consumerGroupId : Nat
  messageProcessingId : Option Nat
  errorMessage : String
  severity : String
  eventType : Option String
  retryCount : Nat
  acknowledged : Bool
  acknowledgedBy : Option String
  acknowledgedAt : Option Nat
  resolutionNotes : Option String
  deriving Repr, DecidableEq

/-- The slice of the tracking database the dispatch loop writes:
processing rows, error rows, and the auto-increment counter. -/
structure TrackingStore where
  processing : List MessageProcessingRow
  errors : List ConsumerErrorRow
  nextId : Nat
  deriving Repr, DecidableEq

/-- Which of the tracking writes throw in a given run (a persistence hiccup
in the store).  `false` everywhere models a healthy store. -/
structure TrackingBehavior where
  startFails : Bool
  completeFails : Bool
  failFails : Bool
  trackErrorFails : Bool
  deriving Repr, DecidableEq

/-- The healthy store: every tracking write succeeds. -/
def trackingOk : TrackingBehavior :=
  { startFails := false, completeFails := false
    failFails := false, trackErrorFails := false }

/-- Model of JavaScript `String.prototype.includes` for a non-empty pattern:
`s.splitOn pat` has more than one piece exactly when `pat` occurs in `s`. -/
def containsSub (s pat : String) : Bool :=
  (s.splitOn pat).length != 1

/-- `ConsumerTrackingService.determineSeverity(error, retryCount)`:
`CRITICAL` on a fatal/connectivity marker in the message, else `HIGH` when
`retryCount > 3` or a corruption marker matches, else `MEDIUM` when
`retryCount > 0`, else `LOW`. -/
def determineSeverity (errMsg : String) (retryCount : Nat) : String :=
  if containsSub errMsg ("FATAL") || containsSub errMsg ("Cannot connect") then
    "CRITICAL"
  else if retryCount > 3 || containsSub errMsg ("data corruption") then "HIGH"
  else if retryCount > 0 then "MEDIUM"
  else "LOW"

/-- `ConsumerTrackingService.startMessageProcessing` →
`repo.createMessageProcessing`: inserts a `PROCESSING` row and returns its id;
throws when the store write fails. -/
def startMessageProcessing (st : TrackingStore) (b : TrackingBehavior)
    (consumerGroupId : Nat) (topic : String) (partition : Nat) (offset : Int)
    (event : IEvent) : Except String (TrackingStore × Nat) :=
  if b.startFails then .error ("tracking write failed")
  else
    .ok ({ st with
            processing := st.processing ++
              [{ id := st.nextId, consumerGroupId := consumerGroupId
                 messageId := event.eventId, topic := topic
                 partition := partition, offset := offset
                 eventType := event.eventType, status := "PROCESSING"
                 retryCount := 0, errorMessage := none }]
            nextId := st.nextId + 1 },
         st.nextId)

/-- `ConsumerTrackingService.completeMessageProcessing` →
`repo.updateMessageProcessing`: sets the row's status to `COMPLETED`. -/
def completeMessageProcessing (st : TrackingStore) (b : TrackingBehavior)
    (processingId : Nat) : Except String TrackingStore :=
  if b.completeFails then .error ("tracking write failed")
  else
    .ok { st with
          processing := st.processing.map (fun r =>
            if r.id = processingId then { r with status := "COMPLETED" } else r) }

/-- `ConsumerTrackingService.failMessageProcessing(id, error, retryCount)` →
`repo.updateMessageProcessing`: status `RETRYING` when `retryCount > 0`, else
`FAILED`; records the error message and the retry count. -/
def failMessageProcessing (st : TrackingStore) (b : TrackingBehavior)
    (processingId : Nat) (errMsg : String) (retryCount : Nat) :
    Except String TrackingStore :=
  if b.failFails then .error ("tracking write failed")
  else
    .ok { st with
          processing := st.processing.map (fun r =>
            if r.id = processingId then
              { r with
                status := if retryCount > 0 then "RETRYING" else "FAILED"
                retryCount := retryCount
                errorMessage := some errMsg }
            else r) }

/-- `ConsumerTrackingService.trackConsumerError` →
`repo.createConsumerError`: inserts an unacknowledged error row whose severity
comes from `determineSeverity`. -/
def trackConsumerError (st : TrackingStore) (b : TrackingBehavior)
    (consumerGroupId : Nat) (errMsg : String) (eventType : Option String)
    (messageProcessingId : Option Nat) (retryCount : Nat) :
    Except String TrackingStore :=
  if b.trackErrorFails then .error ("tracking write failed")
  else
    .ok { st with
          errors := st.errors ++
            [{ id := st.nextId, consumerGroupId := consumerGroupId
               messageProcessingId := messageProcessingId
               errorMessage := errMsg
               severity := determineSeverity errMsg retryCount
               eventType := eventType, retryCount := retryCount
               acknowledged := false, acknowledgedBy := none
               acknowledgedAt := none, resolutionNotes := none }]
          nextId := st.nextId + 1 }

/-- `KafkaTrackingRepository.acknowledgeError(errorId, data)`: the unguarded
`UPDATE ... SET acknowledged = 1, acknowledged_by = ?, acknowledged_at =
CURRENT_TIMESTAMP, resolution_notes = ? WHERE id = ?` — it overwrites the
acknowledgment columns of the matching row unconditionally. -/
def acknowledgeError (db : List ConsumerErrorRow) (errorId : Nat)
    (acknowledgedBy : String) (resolutionNotes : Option String) (now : Nat) :
    List ConsumerErrorRow :=
  db.map (fun r =>
    if r.id = errorId then
      { r with
        acknowledged := true
        acknowledgedBy := some acknowledgedBy
        acknowledgedAt := some now
        resolutionNotes := resolutionNotes }
    else r)

/-! ### Dispatch loop (`BaseConsumer.handleMessage`) -/

deriving instance DecidableEq for Except

/-- Outcome of one `handleMessage` call: the tracking store afterwards,
whether the call returned normally (`.ok`) or re-raised (`.error`), and
whether the business handler was invoked. -/
structure DispatchResult where
  store : TrackingStore
  result : Except String Unit
  handlerInvoked : Bool
  deriving Repr, DecidableEq

/-- A `try { await f } catch { log }` around a tracking write: on failure the
store is left as it was and the error is swallowed. -/
def swallow (st : TrackingStore) (r : Except String TrackingStore) :
    TrackingStore :=
  match r with
  | .ok st2 => st2
  | .error _ => st

/-- The error message the model gives to a failed `JSON.parse`. -/
def parseErrorMsg : String := "Unexpected token in JSON"

/-- First half of the `catch` block of `handleMessage`: when a processing row
is open, mark it failed with `retryCount = 0`, swallowing a write failure. -/
def dispatchCatchFail (b : TrackingBehavior) (st : TrackingStore)
    (processingId : Option Nat) (errMsg : String) : TrackingStore :=
  match processingId with
  | some pid => swallow st (failMessageProcessing st b pid errMsg 0)
  | none => st

/-- The `catch` block of `handleMessage`: mark the open processing row
`FAILED` (dispatch always passes `retryCount = 0`), then create a
ConsumerError whose `eventType` argument re-parses `message.value` — for a
malformed value that re-parse throws inside the inner `try`, so the error row
is never created; both tracking writes are swallowed on failure. -/
def dispatchCatch (parse : String → Option IEvent) (b : TrackingBehavior)
    (consumerGroupId : Option Nat) (st : TrackingStore)
    (msgValue : Option String) (processingId : Option Nat) (errMsg : String) :
    TrackingStore :=
  match consumerGroupId with
  | some gid =>
    match msgValue with
    | some s =>
      match parse s with
      | some e =>
        swallow (dispatchCatchFail b st processingId errMsg)
          (trackConsumerError (dispatchCatchFail b st processingId errMsg)
            b gid errMsg (some e.eventType) processingId 0)
      | none => dispatchCatchFail b st processingId errMsg
    | none =>
      swallow (dispatchCatchFail b st processingId errMsg)
        (trackConsumerError (dispatchCatchFail b st processingId errMsg)
          b gid errMsg none processingId 0)
  | none => dispatchCatchFail b st processingId errMsg

/-- Step 3 of `handleMessage`: when a consumer-group id is registered, try to
open a `PROCESSING` row; a write failure is swallowed and leaves the
processing id unset.  Returns the store and the optional processing id. -/
def startStep (b : TrackingBehavior) (consumerGroupId : Option Nat)
    (st : TrackingStore) (topic : String) (partition : Nat) (offset : Int)
    (event : IEvent) : TrackingStore × Option Nat :=
  match consumerGroupId with
  | some gid =>
    match startMessageProcessing st b gid topic partition offset event with
    | .ok (st2, pid) => (st2, some pid)
    | .error _ => (st, none)
  | none => (st, none)

/-- Success epilogue of `handleMessage`: when a processing row was opened,
mark it `COMPLETED`, swallowing a write failure. -/
def completeStep (b : TrackingBehavior) (out : TrackingStore × Option Nat) :
    TrackingStore :=
  match out.2 with
  | some pid => swallow out.1 (completeMessageProcessing out.1 b pid)
  | none => out.1

/-- `BaseConsumer.handleMessage(payload)` per received record:

1. `message.value?.toString()` — a missing or empty value is logged and the
   call returns (`!eventData` is truthy for `""` too);
2. `JSON.parse` — a malformed value jumps to the catch block with no open
   processing row and re-raises;
3. when a consumer-group id is registered, open a `PROCESSING` row (a write
   failure is swallowed and leaves `processingId` unset);
4. invoke the handler; on success mark `COMPLETED` (write failure swallowed);
   on failure run the catch block and re-raise.

`parse` models `JSON.parse` (deterministic), `handle` the business handler,
`b` the tracking store's failure behavior. -/
def handleMessage (parse : String → Option IEvent)
    (handle : IEvent → Except String Unit) (b : TrackingBehavior)
    (consumerGroupId : Option Nat) (st : TrackingStore)
    (topic : String) (partition : Nat) (offset : Int)
    (msgValue : Option String) : DispatchResult :=
  match msgValue with
  | none => { store := st, result := .ok (), handlerInvoked := false }
  | some s =>
    if s = "" then { store := st, result := .ok (), handlerInvoked := false }
    else
      match parse s with
      | none =>
        { store := dispatchCatch parse b consumerGroupId st (some s) none
                     parseErrorMsg
          result := .error parseErrorMsg
          handlerInvoked := false }
      | some event =>
        match handle event with
        | .ok _ =>
          { store :=
              completeStep b
                (startStep b consumerGroupId st topic partition offset event)
            result := .ok ()
            handlerInvoked := true }
        | .error e =>
          { store := dispatchCatch parse b consumerGroupId
              (startStep b consumerGroupId st topic partition offset event).1
              (some s)
              (startStep b consumerGroupId st topic partition offset event).2 e
            result := .error e
            handlerInvoked := true }

/-! ### Dashboard (`ConsumerTrackingService.getDashboard`, slow messages) -/

/-- The columns of `kafka_message_processing` the dashboard query reads. -/
structure DashboardProcessingRow where
  id : Nat
  processingStartedAt : Int
  processingDurationMs : Option Int
  deriving Repr, DecidableEq

/-- `ORDER BY processing_started_at DESC`: row `a` comes before row `b` when
its start time is at least `b`'s. -/
def startedGe (a b : DashboardProcessingRow) : Prop :=
  b.processingStartedAt ≤ a.processingStartedAt

instance : DecidableRel startedGe := fun a b =>
  inferInstanceAs (Decidable (b.processingStartedAt ≤ a.processingStartedAt))

instance : IsTotal DashboardProcessingRow startedGe :=
  ⟨fun a b => le_total b.processingStartedAt a.processingStartedAt⟩

instance : IsTrans DashboardProcessingRow startedGe :=
  ⟨fun _ _ _ h1 h2 => le_trans h2 h1⟩

/-- The dashboard's duration comparator
`(a, b) => (b.processingDurationMs || 0) - (a.processingDurationMs || 0)`:
row `a` comes before row `b` when its duration is at least `b`'s. -/
def durationGe (a b : DashboardProcessingRow) : Prop :=
  b.processingDurationMs.getD 0 ≤ a.processingDurationMs.getD 0

instance : DecidableRel durationGe := fun a b =>
  inferInstanceAs (Decidable (b.processingDurationMs.getD 0 ≤ a.processingDurationMs.getD 0))

instance : IsTotal DashboardProcessingRow durationGe :=
  ⟨fun a b => le_total (b.processingDurationMs.getD 0) (a.processingDurationMs.getD 0)⟩

instance : IsTrans DashboardProcessingRow durationGe :=
  ⟨fun _ _ _ h1 h2 => le_trans h2 h1⟩

/-- `KafkaTrackingRepository.getMessageProcessing` for the dashboard's filter
`{ startDate, limit }`: rows with `processing_started_at >= startDate`,
ordered `processing_started_at DESC`, `LIMIT limit`. -/
def getMessageProcessing (db : List DashboardProcessingRow) (startDate : Int)
    (limit : Nat) : List DashboardProcessingRow :=
  ((db.filter (fun r => startDate ≤ r.processingStartedAt)).insertionSort
      startedGe).take limit

/-- The `topSlowMessages` field of `ConsumerTrackingService.getDashboard`:
fetch the last hour with `limit: 10`, sort that result by
`processingDurationMs` descending, then `slice(0, 10)`. -/
def topSlowMessages (db : List DashboardProcessingRow) (now : Int) :
    List DashboardProcessingRow :=
  ((getMessageProcessing db (now - 3600000) 10).insertionSort durationGe).take 10

/-! ### Claims -/

/-- C1 counterexample: a group whose state breaches all four thresholds
(lag 12001, error rate 11%, average time 5001 ms, status `STOPPED`) gets
health score 100 − 30 − 25 − 20 − 40 = −15, which lies outside `[0,100]`:
`getConsumerHealthReport` does not clamp. -/
theorem healthScore_not_clamped_cex :
    healthScore
        { totalLag := 12001, errorRate := 11, avgProcessingTimeMs := 5001
          groupStatus := "STOPPED" } = -15 ∧
      ¬ (0 ≤ healthScore
            { totalLag := 12001, errorRate := 11, avgProcessingTimeMs := 5001
              groupStatus := "STOPPED" }) := by
  decide

/-- C1 (amended): the health score returned by `getConsumerHealthReport` is
an integer in `[−15, 100]` — 100 minus the additive deductions, with no
clamping applied. -/
theorem healthScore_bounds_no_clamp (i : HealthInputs) :
    -15 ≤ (getConsumerHealthReport i).healthScore ∧
      (getConsumerHealthReport i).healthScore ≤ 100 := by
  show -15 ≤ healthScore i ∧ healthScore i ≤ 100
  unfold healthScore lagDeduction errorRateDeduction processingTimeDeduction
    connectivityDeduction
  split_ifs <;> omega

/-- C1 witness: the bounds hold at a concrete input. -/
theorem healthScore_bounds_no_clamp_witness :
    -15 ≤ (getConsumerHealthReport
        { totalLag := 0, errorRate := 0, avgProcessingTimeMs := 0
          groupStatus := "ACTIVE" }).healthScore ∧
      (getConsumerHealthReport
        { totalLag := 0, errorRate := 0, avgProcessingTimeMs := 0
          groupStatus := "ACTIVE" }).healthScore ≤ 100 :=
  healthScore_bounds_no_clamp
    { totalLag := 0, errorRate := 0, avgProcessingTimeMs := 0
      groupStatus := "ACTIVE" }

/-- C4: with `totalLag = 12000`, `errorRate = 0`, `avgProcessingTimeMs = 0`
and status `ACTIVE`, `getConsumerHealthReport` returns score exactly 70
(only the 30-point lag deduction applies) and overall status `WARNING`. -/
theorem healthReport_scenarioC :
    getConsumerHealthReport
        { totalLag := 12000, errorRate := 0, avgProcessingTimeMs := 0
          groupStatus := "ACTIVE" } =
      { healthScore := 70, status := "WARNING" } := by
  decide

/-- C5 counterexample: supplying the explicit key `""` does not make `""` the
record key — `key || event.eventId` treats the empty string as falsy, so the
emitted key is the eventId `abc-1`. -/
theorem send_empty_key_cex :
    (send true ("loan-events")
        { eventId := "abc-1", eventType := "LoanApplicationCreated"
          timestamp := "2026-01-01", source := "lms", version := "1"
          correlationId := none, payload := "p" }
        (some "")).map (fun r => r.messages.map (fun m => m.key)) =
      Except.ok ["abc-1"] ∧ "abc-1" ≠ "" := by
  decide

/-- C5 (amended): every `send` on a connected producer emits exactly one
record with exactly one message whose `eventId` header equals the envelope's
`eventId`; a supplied **non-empty** key becomes the record key (an empty
supplied key falls back to the eventId).  In particular Scenario A holds:
publishing the `LoanApplicationCreated` event `abc-1` with key `CUST-1`
emits one record with key `CUST-1` and header `eventId == abc-1`. -/
theorem send_single_record_header_roundtrip :
    (∀ (t : String) (e : IEvent) (k : Option String),
      ∃ m, send true t e k = Except.ok { topic := t, messages := [m] } ∧
        m.headers.lookup ("eventId") = some e.eventId ∧
        ∀ s, k = some s → s ≠ "" → m.key = s) ∧
    (∃ m, send true ("loan-events")
          { eventId := "abc-1", eventType := "LoanApplicationCreated"
            timestamp := "2026-01-01", source := "lms", version := "1"
            correlationId := none, payload := "p" } (some "CUST-1") =
        Except.ok { topic := "loan-events", messages := [m] } ∧
        m.key = "CUST-1" ∧ m.headers.lookup ("eventId") = some "abc-1") := by
  constructor
  · intro t e k
    refine ⟨mkMessage e k, rfl, ?_, ?_⟩
    · simp [mkMessage, mkHeaders, List.lookup]
    · intro s hk hs
      simp [mkMessage, jsOrString, hk, hs]
  · exact ⟨mkMessage
      { eventId := "abc-1", eventType := "LoanApplicationCreated"
        timestamp := "2026-01-01", source := "lms", version := "1"
        correlationId := none, payload := "p" } (some "CUST-1"),
      rfl, by decide, by decide⟩

/-- C5 witness: the non-empty-key clause applied at key `CUST-1`. -/
theorem send_single_record_header_roundtrip_witness :
    ∃ m, send true ("t1")
        { eventId := "e9", eventType := "T", timestamp := "ts"
          source := "s", version := "1", correlationId := none
          payload := "p" } (some "K9") =
      Except.ok { topic := "t1", messages := [m] } ∧ m.key = "K9" := by
  obtain ⟨m, h1, _, h3⟩ := send_single_record_header_roundtrip.1 ("t1")
    { eventId := "e9", eventType := "T", timestamp := "ts"
      source := "s", version := "1", correlationId := none, payload := "p" }
    (some "K9")
  exact ⟨m, h1, h3 ("K9") rfl (by decide)⟩

/-- C9 counterexample: a keyless `send` of an event that carries
`correlationId = corr-1` uses the eventId `e-1` as the record key, not the
correlationId — the claimed correlationId default does not exist in
`BaseProducer.send`. -/
theorem send_default_key_ignores_correlationId_cex :
    (send true ("loan-events")
        { eventId := "e-1", eventType := "LoanApplicationCreated"
          timestamp := "2026-01-01", source := "lms", version := "1"
          correlationId := some "corr-1", payload := "p" }
        none).map (fun r => r.messages.map (fun m => m.key)) =
      Except.ok ["e-1"] ∧ "e-1" ≠ "corr-1" := by
  decide

/-- C9 (amended): without an explicit key the record key defaults to the
envelope's `eventId` unconditionally — `correlationId` is never consulted —
and every `sendBatch` message likewise uses its event's `eventId` as key. -/
theorem send_default_key_eventId :
    (∀ (t : String) (e : IEvent),
      ∃ m, send true t e none = Except.ok { topic := t, messages := [m] } ∧
        m.key = e.eventId) ∧
    (∀ (t : String) (es : List IEvent),
      (sendBatch true t es).map
          (fun o => o.map (fun r => r.messages.map (fun m => m.key))) =
        Except.ok (if es.length = 0 then none else some (es.map (fun e => e.eventId)))) := by
  constructor
  · intro t e
    exact ⟨mkMessage e none, rfl, rfl⟩
  · intro t es
    cases es with
    | nil => rfl
    | cons e tl =>
      simp [sendBatch, Except.map, mkMessage, jsOrString]

/-- C10: an empty `publishBatch` on an initialized publisher returns
successfully with no record emitted, and an empty `sendBatch` on a connected
producer likewise returns successfully without sending. -/
theorem publishBatch_empty_noop :
    publishBatch true [] = Except.ok [] ∧
      ∀ t : String, sendBatch true t [] = Except.ok none := by
  exact ⟨rfl, fun t => rfl⟩

/-- C3 counterexample: an error acknowledged first by `alice` at time 100 and
again by `bob` at time 200 ends with `acknowledgedBy = bob`,
`acknowledgedAt = 200` — the second call overwrote the first call's outcome,
so acknowledgment is not first-writer-wins. -/
theorem acknowledgeError_overwrites_cex :
    (acknowledgeError
        [{ id := 1, consumerGroupId := 5, messageProcessingId := none
           errorMessage := "boom", severity := "LOW", eventType := none
           retryCount := 0, acknowledged := false, acknowledgedBy := none
           acknowledgedAt := none, resolutionNotes := none }]
        1 ("alice") none 100).map
        (fun r => (r.acknowledgedBy, r.acknowledgedAt)) =
      [(some "alice", some 100)] ∧
    (acknowledgeError (acknowledgeError
        [{ id := 1, consumerGroupId := 5, messageProcessingId := none
           errorMessage := "boom", severity := "LOW", eventType := none
           retryCount := 0, acknowledged := false, acknowledgedBy := none
           acknowledgedAt := none, resolutionNotes := none }]
        1 ("alice") none 100) 1 ("bob") none 200).map
        (fun r => (r.acknowledgedBy, r.acknowledgedAt)) =
      [(some "bob", some 200)] ∧
    some "bob" ≠ some "alice" := by
  decide

/-- C3 (amended): `acknowledgeError` is last-writer-wins, not
first-writer-wins: after a repeat call on an already-acknowledged error the
row still has `acknowledged = true` (the false→true transition is one-way),
but `acknowledgedBy`, `acknowledgedAt` and `resolutionNotes` are those of the
repeat call — the unguarded UPDATE overwrites the first call's outcome. -/
theorem acknowledgeError_last_writer_wins
    (db : List ConsumerErrorRow) (i : Nat) (u1 u2 : String)
    (n1 n2 : Option String) (t1 t2 : Nat) (r : ConsumerErrorRow)
    (hr : r ∈ acknowledgeError (acknowledgeError db i u1 n1 t1) i u2 n2 t2)
    (hid : r.id = i) :
    r.acknowledged = true ∧ r.acknowledgedBy = some u2 ∧
      r.acknowledgedAt = some t2 ∧ r.resolutionNotes = n2 := by
  obtain ⟨a, ha, rfl⟩ := List.mem_map.mp hr
  by_cases h : a.id = i
  · simp [h]
  · simp only [if_neg h] at hid ⊢
    exact absurd hid h

/-- C3 witness: the last-writer-wins conclusion at a concrete double
acknowledgment. -/
theorem acknowledgeError_last_writer_wins_witness :
    ({ id := 1, consumerGroupId := 5, messageProcessingId := none
       errorMessage := "boom", severity := "LOW", eventType := none
       retryCount := 0, acknowledged := true, acknowledgedBy := some "bob"
       acknowledgedAt := some 200, resolutionNotes := none } :
        ConsumerErrorRow).acknowledged = true ∧
    ({ id := 1, consumerGroupId := 5, messageProcessingId := none
       errorMessage := "boom", severity := "LOW", eventType := none
       retryCount := 0, acknowledged := true, acknowledgedBy := some "bob"
       acknowledgedAt := some 200, resolutionNotes := none } :
        ConsumerErrorRow).acknowledgedBy = some "bob" ∧
    ({ id := 1, consumerGroupId := 5, messageProcessingId := none
       errorMessage := "boom", severity := "LOW", eventType := none
       retryCount := 0, acknowledged := true, acknowledgedBy := some "bob"
       acknowledgedAt := some 200, resolutionNotes := none } :
        ConsumerErrorRow).acknowledgedAt = some 200 ∧
    ({ id := 1, consumerGroupId := 5, messageProcessingId := none
       errorMessage := "boom", severity := "LOW", eventType := none
       retryCount := 0, acknowledged := true, acknowledgedBy := some "bob"
       acknowledgedAt := some 200, resolutionNotes := none } :
        ConsumerErrorRow).resolutionNotes = none :=
  acknowledgeError_last_writer_wins
    [{ id := 1, consumerGroupId := 5, messageProcessingId := none
       errorMessage := "boom", severity := "LOW", eventType := none
       retryCount := 0, acknowledged := false, acknowledgedBy := none
       acknowledgedAt := none, resolutionNotes := none }]
    1 ("alice") ("bob") none none 100 200 _ (by decide) (by decide)

/-- A record value that never reaches the handler: missing or empty
(`!eventData` in the source is truthy for both). -/
def emptyValue (msgValue : Option String) : Prop :=
  msgValue = none ∨ msgValue = some ""

/-- A record value that fails to decode as an event envelope: missing, empty,
or one `JSON.parse` rejects. -/
def decodeFailure (parse : String → Option IEvent)
    (msgValue : Option String) : Prop :=
  match msgValue with
  | none => True
  | some s => s = "" ∨ parse s = none

/-- C2 counterexample: a malformed (non-empty, unparseable) record value does
not let the dispatch call complete without raising — `handleMessage`
re-raises the `JSON.parse` error from its catch block. -/
theorem malformed_payload_raises_cex :
    ¬ ((handleMessage (fun _ => none) (fun _ => Except.ok ()) trackingOk
          (some 1) { processing := [], errors := [], nextId := 0 }
          ("loan-events") 0 0 (some "not-json")).result = Except.ok ()) := by
  decide

/-- C2 (amended): for every record whose value fails to decode, the dispatch
loop creates no MessageProcessingRecord and no ConsumerError (the store is
exactly as before) and the handler is not invoked; the call completes without
raising exactly when the value is missing or empty — a malformed non-empty
value instead re-raises the decode error. -/
theorem decode_failure_no_tracking
    (parse : String → Option IEvent) (handle : IEvent → Except String Unit)
    (b : TrackingBehavior) (cgid : Option Nat) (st : TrackingStore)
    (topic : String) (partition : Nat) (offset : Int)
    (msgValue : Option String) (hdec : decodeFailure parse msgValue) :
    (handleMessage parse handle b cgid st topic partition offset
        msgValue).store = st ∧
    (handleMessage parse handle b cgid st topic partition offset
        msgValue).handlerInvoked = false ∧
    ((handleMessage parse handle b cgid st topic partition offset
        msgValue).result = Except.ok () ↔ emptyValue msgValue) := by
  cases msgValue with
  | none =>
    refine ⟨rfl, rfl, ?_⟩
    simp [handleMessage, emptyValue]
  | some s =>
    by_cases hs : s = ""
    · subst hs
      refine ⟨rfl, rfl, ?_⟩
      simp [handleMessage, emptyValue]
    · have hp : parse s = none := by
        cases hdec with
        | inl h => exact absurd h hs
        | inr h => exact h
      refine ⟨?_, ?_, ?_⟩
      · simp only [handleMessage, if_neg hs, hp, dispatchCatch]
        cases cgid <;> simp [hp, dispatchCatchFail]
      · simp only [handleMessage, if_neg hs, hp]
      · simp only [handleMessage, if_neg hs, hp, emptyValue]
        constructor
        · intro h
          exact absurd h (by simp)
        · intro h
          cases h with
          | inl h => exact absurd h (by simp)
          | inr h => exact absurd h (by simp [hs])

/-- C2 witness: the amended statement at a concrete malformed record. -/
theorem decode_failure_no_tracking_witness :
    (handleMessage (fun _ => none) (fun _ => Except.ok ()) trackingOk
        (some 1) { processing := [], errors := [], nextId := 0 }
        ("loan-events") 0 0 (some "garbage")).store =
      { processing := [], errors := [], nextId := 0 } ∧
    (handleMessage (fun _ => none) (fun _ => Except.ok ()) trackingOk
        (some 1) { processing := [], errors := [], nextId := 0 }
        ("loan-events") 0 0 (some "garbage")).handlerInvoked = false ∧
    ((handleMessage (fun _ => none) (fun _ => Except.ok ()) trackingOk
        (some 1) { processing := [], errors := [], nextId := 0 }
        ("loan-events") 0 0 (some "garbage")).result = Except.ok () ↔
      emptyValue (some "garbage")) :=
  decode_failure_no_tracking (fun _ => none) (fun _ => Except.ok ())
    trackingOk (some 1) { processing := [], errors := [], nextId := 0 }
    ("loan-events") 0 0 (some "garbage") (Or.inr rfl)

/-- No processing row of the store is in status `RETRYING`. -/
def noRetrying (st : TrackingStore) : Prop :=
  ∀ r ∈ st.processing, r.status ≠ "RETRYING"


theorem noRetrying_swallow {st : TrackingStore}
    {x : Except String TrackingStore} (h1 : noRetrying st)
    (h2 : ∀ st2, x = Except.ok st2 → noRetrying st2) :
    noRetrying (swallow st x) := by
  cases x with
  | ok st2 => exact h2 st2 rfl
  | error e => exact h1

theorem noRetrying_start {st : TrackingStore} {b : TrackingBehavior}
    {g : Nat} {t : String} {p : Nat} {o : Int} {e : IEvent}
    {st2 : TrackingStore} {pid : Nat} (h : noRetrying st)
    (heq : startMessageProcessing st b g t p o e = Except.ok (st2, pid)) :
    noRetrying st2 := by
  unfold startMessageProcessing at heq
  split at heq
  · exact absurd heq (by simp)
  · cases heq
    intro r hr
    rcases List.mem_append.mp hr with hmem | hmem
    · exact h r hmem
    · rcases List.mem_singleton.mp hmem with rfl
      simp

theorem noRetrying_complete {st : TrackingStore} {b : TrackingBehavior}
    {pid : Nat} (h : noRetrying st) :
    ∀ st2, completeMessageProcessing st b pid = Except.ok st2 →
      noRetrying st2 := by
  intro st2 heq
  unfold completeMessageProcessing at heq
  split at heq
  · exact absurd heq (by simp)
  · cases heq
    intro r hr
    obtain ⟨a, ha, rfl⟩ := List.mem_map.mp hr
    by_cases hid : a.id = pid
    · simp [hid]
    · simp only [if_neg hid]
      exact h a ha

theorem noRetrying_fail0 {st : TrackingStore} {b : TrackingBehavior}
    {pid : Nat} {m : String} (h : noRetrying st) :
    ∀ st2, failMessageProcessing st b pid m 0 = Except.ok st2 →
      noRetrying st2 := by
  intro st2 heq
  unfold failMessageProcessing at heq
  split at heq
  · exact absurd heq (by simp)
  · cases heq
    intro r hr
    obtain ⟨a, ha, rfl⟩ := List.mem_map.mp hr
    by_cases hid : a.id = pid
    · simp [hid]
    · simp only [if_neg hid]
      exact h a ha

theorem noRetrying_trackError {st : TrackingStore} {b : TrackingBehavior}
    {g : Nat} {m : String} {et : Option String} {pid : Option Nat} {rc : Nat}
    (h : noRetrying st) :
    ∀ st2, trackConsumerError st b g m et pid rc = Except.ok st2 →
      noRetrying st2 := by
  intro st2 heq
  unfold trackConsumerError at heq
  split at heq
  · exact absurd heq (by simp)
  · cases heq
    exact h

theorem noRetrying_dispatchCatchFail {b : TrackingBehavior}
    {st : TrackingStore} {pid : Option Nat} {m : String}
    (h : noRetrying st) : noRetrying (dispatchCatchFail b st pid m) := by
  unfold dispatchCatchFail
  cases pid with
  | some p => exact noRetrying_swallow h (noRetrying_fail0 h)
  | none => exact h

theorem noRetrying_dispatchCatch (parse : String → Option IEvent)
    (b : TrackingBehavior) (cgid : Option Nat) {st : TrackingStore}
    (msgValue : Option String) (pid : Option Nat) (m : String)
    (h : noRetrying st) :
    noRetrying (dispatchCatch parse b cgid st msgValue pid m) := by
  unfold dispatchCatch
  cases cgid with
  | none => exact noRetrying_dispatchCatchFail h
  | some g =>
    cases msgValue with
    | none =>
      exact noRetrying_swallow (noRetrying_dispatchCatchFail h)
        (noRetrying_trackError (noRetrying_dispatchCatchFail h))
    | some s =>
      cases hp : parse s with
      | none =>
        simp only [hp]
        exact noRetrying_dispatchCatchFail h
      | some e =>
        simp only [hp]
        exact noRetrying_swallow (noRetrying_dispatchCatchFail h)
          (noRetrying_trackError (noRetrying_dispatchCatchFail h))

theorem noRetrying_startStep {b : TrackingBehavior} {cgid : Option Nat}
    {st : TrackingStore} {topic : String} {partition : Nat} {offset : Int}
    {event : IEvent} (h : noRetrying st) :
    noRetrying (startStep b cgid st topic partition offset event).1 := by
  unfold startStep
  cases cgid with
  | none => exact h
  | some gid =>
    cases heq : startMessageProcessing st b gid topic partition offset event with
    | ok out =>
      obtain ⟨st2, pid⟩ := out
      simp only [heq]
      exact noRetrying_start h heq
    | error e =>
      simp only [heq]
      exact h

theorem noRetrying_completeStep {b : TrackingBehavior}
    {out : TrackingStore × Option Nat} (h : noRetrying out.1) :
    noRetrying (completeStep b out) := by
  unfold completeStep
  cases hpid : out.2 with
  | some pid => exact noRetrying_swallow h (noRetrying_complete h)
  | none => exact h

/-- C6: the dispatch layer always passes `retryCount = 0` to
`failMessageProcessing`, so a handler failure marks the open record `FAILED`;
no execution of `handleMessage` can introduce a `RETRYING` row — the
`RETRYING` status is unreachable from this layer.  The second conjunct states
the concrete write: `failMessageProcessing` at `retryCount = 0` sets every
matching row's status to `FAILED`. -/
theorem dispatch_never_retrying :
    (∀ (parse : String → Option IEvent)
        (handle : IEvent → Except String Unit) (b : TrackingBehavior)
        (cgid : Option Nat) (st : TrackingStore) (topic : String)
        (partition : Nat) (offset : Int) (msgValue : Option String),
      noRetrying st →
      noRetrying (handleMessage parse handle b cgid st topic partition offset
        msgValue).store) ∧
    (∀ (st : TrackingStore) (b : TrackingBehavior) (pid : Nat) (m : String)
        (st2 : TrackingStore),
      failMessageProcessing st b pid m 0 = Except.ok st2 →
      ∀ r ∈ st2.processing, r.id = pid → r.status = "FAILED") := by
  constructor
  · intro parse handle b cgid st topic partition offset msgValue h
    cases msgValue with
    | none => exact h
    | some s =>
      by_cases hs : s = ""
      · subst hs
        exact h
      · simp only [handleMessage, if_neg hs]
        cases hp : parse s with
        | none =>
          exact noRetrying_dispatchCatch parse b cgid (some s) none _ h
        | some event =>
          dsimp only
          cases hh : handle event with
          | ok u =>
            simp only [hh]
            exact noRetrying_completeStep (noRetrying_startStep h)
          | error e =>
            simp only [hh]
            exact noRetrying_dispatchCatch parse b cgid (some s) _ e
              (noRetrying_startStep h)
  · intro st b pid m st2 heq r hr hid
    unfold failMessageProcessing at heq
    split at heq
    · exact absurd heq (by simp)
    · cases heq
      obtain ⟨a, ha, rfl⟩ := List.mem_map.mp hr
      by_cases h : a.id = pid
      · simp [h]
      · simp only [if_neg h] at hid ⊢
        exact absurd hid h

/-- C6 witness: a concrete failing handler run starting from a healthy
one-row store leaves no `RETRYING` row. -/
theorem dispatch_never_retrying_witness :
    noRetrying (handleMessage
        (fun _ => some { eventId := "e1", eventType := "T"
                         timestamp := "ts", source := "s", version := "1"
                         correlationId := none, payload := "p" })
        (fun _ => Except.error "handler blew up") trackingOk (some 1)
        { processing := [], errors := [], nextId := 0 }
        ("loan-events") 0 0 (some "x")).store :=
  dispatch_never_retrying.1
    (fun _ => some { eventId := "e1", eventType := "T"
                     timestamp := "ts", source := "s", version := "1"
                     correlationId := none, payload := "p" })
    (fun _ => Except.error "handler blew up") trackingOk (some 1)
    { processing := [], errors := [], nextId := 0 }
    ("loan-events") 0 0 (some "x")
    (by intro r hr; exact absurd hr (by simp))

/-- C7: the success/failure outcome of a dispatch call and whether the
business handler ran are the same under any tracking-store failure behavior
`b` as under a healthy store — every tracking write sits inside its own
`try/catch` and a thrown tracking error is logged and swallowed, never
escalated to the dispatch loop. -/
theorem tracking_failures_do_not_change_outcome
    (parse : String → Option IEvent) (handle : IEvent → Except String Unit)
    (b : TrackingBehavior) (cgid : Option Nat) (st : TrackingStore)
    (topic : String) (partition : Nat) (offset : Int)
    (msgValue : Option String) :
    (handleMessage parse handle b cgid st topic partition offset
        msgValue).result =
      (handleMessage parse handle trackingOk cgid st topic partition offset
        msgValue).result ∧
    (handleMessage parse handle b cgid st topic partition offset
        msgValue).handlerInvoked =
      (handleMessage parse handle trackingOk cgid st topic partition offset
        msgValue).handlerInvoked := by
  cases msgValue with
  | none => exact ⟨rfl, rfl⟩
  | some s =>
    by_cases hs : s = ""
    · subst hs
      exact ⟨rfl, rfl⟩
    · simp only [handleMessage, if_neg hs]
      cases hp : parse s with
      | none => exact ⟨rfl, rfl⟩
      | some event =>
        dsimp only
        cases hh : handle event with
        | ok u => exact ⟨rfl, rfl⟩
        | error e => exact ⟨rfl, rfl⟩

/-- C8 counterexample: with eleven records in the last-hour window, the
record started least recently (id 10, duration 999 ms) is cut off by the
repository's `LIMIT 10` before the dashboard sorts by duration — it is in
the window but unlisted, yet its duration exceeds the duration 1 ms of the
listed record id 0.  `topSlowMessages` is therefore not the 10 slowest of
the window. -/
theorem topSlowMessages_not_slowest_cex :
    ({ id := 10, processingStartedAt := 1500000
       processingDurationMs := some 999 } : DashboardProcessingRow) ∈
        ([{ id := 0, processingStartedAt := 2000000, processingDurationMs := some 1 },
          { id := 1, processingStartedAt := 1999000, processingDurationMs := some 1 },
          { id := 2, processingStartedAt := 1998000, processingDurationMs := some 1 },
          { id := 3, processingStartedAt := 1997000, processingDurationMs := some 1 },
          { id := 4, processingStartedAt := 1996000, processingDurationMs := some 1 },
          { id := 5, processingStartedAt := 1995000, processingDurationMs := some 1 },
          { id := 6, processingStartedAt := 1994000, processingDurationMs := some 1 },
          { id := 7, processingStartedAt := 1993000, processingDurationMs := some 1 },
          { id := 8, processingStartedAt := 1992000, processingDurationMs := some 1 },
          { id := 9, processingStartedAt := 1991000, processingDurationMs := some 1 },
          { id := 10, processingStartedAt := 1500000, processingDurationMs := some 999 }] :
          List DashboardProcessingRow) ∧
    (4600000 : Int) - 3600000 ≤ (1500000 : Int) ∧
    ({ id := 10, processingStartedAt := 1500000
       processingDurationMs := some 999 } : DashboardProcessingRow) ∉
      topSlowMessages
        [{ id := 0, processingStartedAt := 2000000, processingDurationMs := some 1 },
         { id := 1, processingStartedAt := 1999000, processingDurationMs := some 1 },
         { id := 2, processingStartedAt := 1998000, processingDurationMs := some 1 },
         { id := 3, processingStartedAt := 1997000, processingDurationMs := some 1 },
         { id := 4, processingStartedAt := 1996000, processingDurationMs := some 1 },
         { id := 5, processingStartedAt := 1995000, processingDurationMs := some 1 },
         { id := 6, processingStartedAt := 1994000, processingDurationMs := some 1 },
         { id := 7, processingStartedAt := 1993000, processingDurationMs := some 1 },
         { id := 8, processingStartedAt := 1992000, processingDurationMs := some 1 },
         { id := 9, processingStartedAt := 1991000, processingDurationMs := some 1 },
         { id := 10, processingStartedAt := 1500000, processingDurationMs := some 999 }]
        4600000 ∧
    ({ id := 0, processingStartedAt := 2000000
       processingDurationMs := some 1 } : DashboardProcessingRow) ∈
      topSlowMessages
        [{ id := 0, processingStartedAt := 2000000, processingDurationMs := some 1 },
         { id := 1, processingStartedAt := 1999000, processingDurationMs := some 1 },
         { id := 2, processingStartedAt := 1998000, processingDurationMs := some 1 },
         { id := 3, processingStartedAt := 1997000, processingDurationMs := some 1 },
         { id := 4, processingStartedAt := 1996000, processingDurationMs := some 1 },
         { id := 5, processingStartedAt := 1995000, processingDurationMs := some 1 },
         { id := 6, processingStartedAt := 1994000, processingDurationMs := some 1 },
         { id := 7, processingStartedAt := 1993000, processingDurationMs := some 1 },
         { id := 8, processingStartedAt := 1992000, processingDurationMs := some 1 },
         { id := 9, processingStartedAt := 1991000, processingDurationMs := some 1 },
         { id := 10, processingStartedAt := 1500000, processingDurationMs := some 999 }]
        4600000 ∧
    (1 : Int) < 999 := by
  decide

/-- C8 (amended): `topSlowMessages` is the ten most **recently started**
messages of the last hour re-sorted by processing duration descending: it is
a permutation of the repository page (window filter, started-at descending,
`LIMIT 10`), it is sorted by duration descending, and it has at most ten
entries.  A slower message outside that recency page is not listed. -/
theorem topSlowMessages_recent10_sorted (db : List DashboardProcessingRow)
    (now : Int) :
    (topSlowMessages db now).Perm (getMessageProcessing db (now - 3600000) 10) ∧
    List.Sorted durationGe (topSlowMessages db now) ∧
    (topSlowMessages db now).length ≤ 10 := by
  refine ⟨?_, ?_, ?_⟩
  · unfold topSlowMessages
    have hlen : (List.insertionSort durationGe
        (getMessageProcessing db (now - 3600000) 10)).length ≤ 10 := by
      rw [List.length_insertionSort]
      unfold getMessageProcessing
      exact List.length_take_le 10 _
    rw [List.take_of_length_le hlen]
    exact List.perm_insertionSort durationGe _
  · unfold topSlowMessages
    exact List.Pairwise.sublist (List.take_sublist 10 _)
      (List.sorted_insertionSort durationGe _)
  · unfold topSlowMessages
    exact List.length_take_le 10 _
